import Mathlib

/-!
Verification of `strawberry_django/filters.py`.

The module has four entry points, each wrapped by the decorator
`assert_django_filters_installed` which raises `ModuleNotFoundError`
when the optional `django_filters` library is absent:

* `get_filter_field_type(field_type)` — looks a filter class up in the
  global `filter_field_type_map`; raises `TypeError` when the argument
  is not a class or when no mapping exists for it.
* `set_filter_field_type(field_type, to_type)` — writes an entry into
  `filter_field_type_map`; raises `TypeError` when the argument is not
  a class.
* `apply_filter(filter_instance, queryset)` — short-circuits when the
  filter instance is `UNSET` or falsy, otherwise extracts the non-unset
  fields into a data dict, builds the filterset and either raises
  `FilterSetError(filterset.errors)` or returns `filterset.qs`.
* `filter(filterset_class, name=None)` — synthesizes an input class
  with one annotated field per filterset field, each defaulting to
  `UNSET`, plus a `filterset_class` back-reference.

The embedding below models Python classes used as map keys, the
Strawberry `UNSET` sentinel, the mutable global table (threaded as an
explicit association list preserving dict insertion-order semantics),
and exceptions as `Except` errors.
-/

namespace StrawberryDjango

/-- Python classes that can appear as keys of `filter_field_type_map`:
the `django_filters` filter classes present in the default map, the
filter classes the source comments list as not implemented (modelled by
`rangeFilter` as a representative), and arbitrary user classes. -/
inductive PyClass
  | booleanFilter
  | charFilter
  | choiceFilter
  | dateFilter
  | dateTimeFilter
  | durationFilter
  | isoDateTimeFilter
  | modelChoiceFilter
  | modelMultipleChoiceFilter
  | multipleChoiceFilter
  | numberFilter
  | timeFilter
  | uuidFilter
  | rangeFilter
  | userClass (n : Nat)
deriving DecidableEq

/-- The semantic GraphQL types stored as values of
`filter_field_type_map`: `Optional[bool]`, `Optional[str]`,
`Optional[ID]`, `Optional[List[ID]]`, `Optional[List[str]]`, plus
arbitrary user-supplied types for overrides. -/
inductive FieldType
  | optBool
  | optStr
  | optId
  | optListId
  | optListStr
  | custom (n : Nat)
deriving DecidableEq

/-- Python runtime values as far as the filter pipeline observes them:
the Strawberry `UNSET` sentinel, `None` (GraphQL null, constructor
`null`), and ordinary payloads. -/
inductive PyValue
  | unset
  | null
  | vBool (b : Bool)
  | vInt (n : Int)
  | vStr (s : String)
deriving DecidableEq

/-- `strawberry.arguments.is_unset` specialised to field values. -/
def is_unset (v : PyValue) : Bool :=
  v = PyValue.unset

/-- Querysets are opaque composable handles; a list of row ids is
enough structure to distinguish distinct querysets. -/
abbrev QuerySet := List Int

/-- The global `filter_field_type_map` dict: an insertion-ordered
association list from filter classes to semantic types. -/
abbrev Table := List (PyClass × FieldType)

/-- Python dict read: first (unique) binding of the key, if any. -/
def lookupTable : Table → PyClass → Option FieldType
  | [], _ => none
  | (k, v) :: rest, c => if k = c then some v else lookupTable rest c

/-- Python dict write: replace in place when present (keys keep their
insertion position), append otherwise. -/
def updateTable : Table → PyClass → FieldType → Table
  | [], c, t => [(c, t)]
  | (k, v) :: rest, c, t =>
      if k = c then (k, t) :: rest else (k, v) :: updateTable rest c t

/-- The default contents of `filter_field_type_map` at module load. -/
def filter_field_type_map : Table :=
  [ (PyClass.booleanFilter, FieldType.optBool),
    (PyClass.charFilter, FieldType.optStr),
    (PyClass.choiceFilter, FieldType.optStr),
    (PyClass.dateFilter, FieldType.optStr),
    (PyClass.dateTimeFilter, FieldType.optStr),
    (PyClass.durationFilter, FieldType.optStr),
    (PyClass.isoDateTimeFilter, FieldType.optStr),
    (PyClass.modelChoiceFilter, FieldType.optId),
    (PyClass.modelMultipleChoiceFilter, FieldType.optListId),
    (PyClass.multipleChoiceFilter, FieldType.optListStr),
    (PyClass.numberFilter, FieldType.optStr),
    (PyClass.timeFilter, FieldType.optStr),
    (PyClass.uuidFilter, FieldType.optStr) ]

/-- The message of the `ModuleNotFoundError` raised by
`assert_django_filters_installed` when `django_filters` is missing. -/
def installMessage : String :=
  "You need to install django-filter to use strawberry_django.filter. See https://django-filter.readthedocs.io/"

/-- The exceptions the module can raise. `moduleNotFoundError` is the
missing-dependency failure (the spec calls it MissingDependencyError);
`typeErrorNotAType` and `typeErrorNoTypeDefined` are the two
`TypeError` sites of `get_filter_field_type` / `set_filter_field_type`
(the spec groups both under TypeMappingError); `keyError` is the dict
access `filters[field_name]` failing in `filter`; `filterSetError`
carries `filterset.errors` (the spec calls it FilterValidationError). -/
inductive FilterError
  | moduleNotFoundError (msg : String)
  | typeErrorNotAType
  | typeErrorNoTypeDefined
  | keyError (field : String)
  | filterSetError (errors : List (String × String))
deriving DecidableEq

/-- The spec groups the two `TypeError` raise sites under the single
name TypeMappingError. -/
def isTypeMappingError : FilterError → Bool
  | FilterError.typeErrorNotAType => true
  | FilterError.typeErrorNoTypeDefined => true
  | _ => false

/-- The argument handed to `get_filter_field_type` /
`set_filter_field_type`: either an actual class (so the check
`type(field_type) != type` passes) or any non-class value (an
instance, so the check fails). -/
inductive FieldTypeArg
  | cls (c : PyClass)
  | nonType (v : PyValue)

/-- A `django_filters.FilterSet` subclass as the module consumes it:
`__name__`, `get_fields()` (ordered field names), `get_filters()`
(field name to filter-class dict), and the behaviour of a filterset
object constructed from `(data, queryset)`: `is_valid()`, `.errors`
and `.qs`, each a function of the construction arguments. -/
structure FilterSetClass where
  name : String
  get_fields : List String
  filters : String → Option PyClass
  is_valid : List (String × PyValue) → QuerySet → Bool
  errors : List (String × PyValue) → QuerySet → List (String × String)
  qs : List (String × PyValue) → QuerySet → QuerySet

/-- An instance of a synthesized filter input type as `apply_filter`
observes it: its Python truthiness, its `filterset_class`
back-reference, and `getattr` behaviour (`none` models a missing
attribute). -/
structure FilterInstance where
  truthy : Bool
  filterset_class : FilterSetClass
  attrs : String → Option PyValue

/-- The `filter_instance` argument of `apply_filter`: the `UNSET`
sentinel itself, or an instance. -/
inductive FilterArg
  | unsetArg
  | inst (i : FilterInstance)

/-- `get_filter_field_type` (filters.py lines 85-94), with the
decorator check first. `installed` is whether `import django_filters`
succeeds; `tbl` is the current `filter_field_type_map`. -/
def get_filter_field_type (installed : Bool) (tbl : Table)
    (field_type : FieldTypeArg) : Except FilterError FieldType :=
  if installed = false then
    Except.error (FilterError.moduleNotFoundError installMessage)
  else
    match field_type with
    | FieldTypeArg.nonType _ => Except.error FilterError.typeErrorNotAType
    | FieldTypeArg.cls c =>
        match lookupTable tbl c with
        | some t => Except.ok t
        | none => Except.error FilterError.typeErrorNoTypeDefined

/-- `set_filter_field_type` (filters.py lines 97-103): on success it
returns the updated `filter_field_type_map`. -/
def set_filter_field_type (installed : Bool) (tbl : Table)
    (field_type : FieldTypeArg) (to_type : FieldType) :
    Except FilterError Table :=
  if installed = false then
    Except.error (FilterError.moduleNotFoundError installMessage)
  else
    match field_type with
    | FieldTypeArg.nonType _ => Except.error FilterError.typeErrorNotAType
    | FieldTypeArg.cls c => Except.ok (updateTable tbl c to_type)

/-- The field-extraction loop of `apply_filter` (filters.py lines
111-115): `value = getattr(filter_instance, field_name, None)`, and the
pair enters the data dict exactly when `is_unset(value)` is false. -/
def extractData (attrs : String → Option PyValue) :
    List String → List (String × PyValue)
  | [] => []
  | n :: rest =>
      let value := (attrs n).getD PyValue.null
      if is_unset value then extractData attrs rest
      else (n, value) :: extractData attrs rest

/-- `apply_filter` (filters.py lines 106-125). -/
def apply_filter (installed : Bool) (filter_instance : FilterArg)
    (queryset : QuerySet) : Except FilterError QuerySet :=
  if installed = false then
    Except.error (FilterError.moduleNotFoundError installMessage)
  else
    match filter_instance with
    | FilterArg.unsetArg => Except.ok queryset
    | FilterArg.inst i =>
        if i.truthy = false then Except.ok queryset
        else
          let data := extractData i.attrs i.filterset_class.get_fields
          if i.filterset_class.is_valid data queryset = false then
            Except.error
              (FilterError.filterSetError (i.filterset_class.errors data queryset))
          else
            Except.ok (i.filterset_class.qs data queryset)

/-- The input class produced by `filter`: its name, its fields in
declaration order — each `(field name, annotated type, default value)`,
the default being what `setattr(cls, field_name, UNSET)` stores — and
the `filterset_class` back-reference. -/
structure InputType where
  name : String
  fields : List (String × FieldType × PyValue)
  filterset_class : FilterSetClass

/-- The field-declaration loop of `filter` (filters.py lines 134-138):
`filters[field_name]` (KeyError when absent), then
`get_filter_field_type(type(filter_field))` on the filter class,
propagating its errors. -/
def synthFields (installed : Bool) (tbl : Table) (fs : FilterSetClass) :
    List String → Except FilterError (List (String × FieldType × PyValue))
  | [] => Except.ok []
  | n :: rest =>
      match fs.filters n with
      | none => Except.error (FilterError.keyError n)
      | some c =>
          match get_filter_field_type installed tbl (FieldTypeArg.cls c) with
          | Except.error e => Except.error e
          | Except.ok ft =>
              match synthFields installed tbl fs rest with
              | Except.error e => Except.error e
              | Except.ok fields => Except.ok ((n, ft, PyValue.unset) :: fields)

/-- `filter` (filters.py lines 128-140). `name or filterset_class.__name__`
falls back both for `None` and for a falsy (empty) string. -/
def filter (installed : Bool) (tbl : Table) (filterset_class : FilterSetClass)
    (name : Option String) : Except FilterError InputType :=
  if installed = false then
    Except.error (FilterError.moduleNotFoundError installMessage)
  else
    let n := match name with
      | none => filterset_class.name
      | some s => if s = "" then filterset_class.name else s
    match synthFields installed tbl filterset_class filterset_class.get_fields with
    | Except.error e => Except.error e
    | Except.ok fields => Except.ok ⟨n, fields, filterset_class⟩

/-! ## Helper lemmas -/

theorem is_unset_iff (v : PyValue) : is_unset v = true ↔ v = PyValue.unset := by
  simp [is_unset]

/-- A dict write makes the written binding visible to reads of that key. -/
theorem lookupTable_updateTable_self (tbl : Table) (c : PyClass) (t : FieldType) :
    lookupTable (updateTable tbl c t) c = some t := by
  induction tbl with
  | nil => simp [updateTable, lookupTable]
  | cons kv rest ih =>
      obtain ⟨k, v⟩ := kv
      by_cases h : k = c
      · simp [updateTable, lookupTable, h]
      · simp [updateTable, lookupTable, h, ih]

/-- Unfolding the extraction loop when the head field is unset. -/
theorem extractData_cons_unset (attrs : String → Option PyValue) (n : String)
    (rest : List String) (h : (attrs n).getD PyValue.null = PyValue.unset) :
    extractData attrs (n :: rest) = extractData attrs rest := by
  simp [extractData, is_unset, h]

/-- Unfolding the extraction loop when the head field is set. -/
theorem extractData_cons_set (attrs : String → Option PyValue) (n : String)
    (rest : List String) (h : (attrs n).getD PyValue.null ≠ PyValue.unset) :
    extractData attrs (n :: rest) =
      (n, (attrs n).getD PyValue.null) :: extractData attrs rest := by
  simp [extractData, is_unset, h]

/-- Characterisation of the extracted data dict: a pair is in it exactly
when its key is a declared field, its value is what `getattr` with a
`None` default yields, and that value is not the `UNSET` sentinel. -/
theorem extractData_mem (attrs : String → Option PyValue) (l : List String)
    (m : String) (w : PyValue) :
    (m, w) ∈ extractData attrs l ↔
      m ∈ l ∧ (attrs m).getD PyValue.null = w ∧ w ≠ PyValue.unset := by
  induction l with
  | nil => simp [extractData]
  | cons n rest ih =>
      by_cases hn : (attrs n).getD PyValue.null = PyValue.unset
      · rw [extractData_cons_unset attrs n rest hn, ih]
        constructor
        · rintro ⟨hm, hv, hw⟩
          exact ⟨List.mem_cons_of_mem n hm, hv, hw⟩
        · rintro ⟨hm, hv, hw⟩
          rcases List.mem_cons.mp hm with hm | hm
          · subst hm
            rw [hn] at hv
            exact absurd hv.symm hw
          · exact ⟨hm, hv, hw⟩
      · rw [extractData_cons_set attrs n rest hn]
        constructor
        · intro hmem
          rcases List.mem_cons.mp hmem with hm | hm
          · rw [Prod.ext_iff] at hm
            obtain ⟨h1, h2⟩ := hm
            dsimp at h1 h2
            subst h1
            subst h2
            exact ⟨List.mem_cons_self m rest, rfl, hn⟩
          · obtain ⟨hm', hv, hw⟩ := ih.mp hm
            exact ⟨List.mem_cons_of_mem n hm', hv, hw⟩
        · rintro ⟨hm, hv, hw⟩
          rcases List.mem_cons.mp hm with hm | hm
          · subst hm
            rw [← hv]
            exact List.mem_cons_self _ _
          · exact List.mem_cons_of_mem _ (ih.mpr ⟨hm, hv, hw⟩)

/-- Soundness of the field-declaration loop: on success, the declared
fields are exactly the requested names in order, each annotated with
the Type Mapper's current answer for its filter class and defaulted to
the `UNSET` sentinel. -/
theorem synthFields_ok (tbl : Table) (fs : FilterSetClass) (l : List String)
    (fields : List (String × FieldType × PyValue))
    (h : synthFields true tbl fs l = Except.ok fields) :
    fields.map (fun f => f.1) = l ∧
      ∀ f ∈ fields, ∃ c, fs.filters f.1 = some c ∧
        lookupTable tbl c = some f.2.1 ∧ f.2.2 = PyValue.unset := by
  induction l generalizing fields with
  | nil =>
      simp only [synthFields] at h
      cases h
      simp
  | cons n rest ih =>
      cases hc : fs.filters n with
      | none =>
          simp only [synthFields, hc] at h
          exact absurd h (by simp)
      | some c =>
          simp only [synthFields, hc] at h
          cases hg : get_filter_field_type true tbl (FieldTypeArg.cls c) with
          | error e => rw [hg] at h; exact absurd h (by simp)
          | ok ft =>
              rw [hg] at h
              cases hr : synthFields true tbl fs rest with
              | error e => rw [hr] at h; exact absurd h (by simp)
              | ok tailFields =>
                  rw [hr] at h
                  cases h
                  obtain ⟨hmap, hall⟩ := ih tailFields hr
                  have hlook : lookupTable tbl c = some ft := by
                    simp only [get_filter_field_type] at hg
                    rw [if_neg (by simp)] at hg
                    cases hl : lookupTable tbl c with
                    | none => rw [hl] at hg; exact absurd hg (by simp)
                    | some t => rw [hl] at hg; cases hg; rfl
                  refine ⟨by simp [hmap], ?_⟩
                  intro f hf
                  rcases List.mem_cons.mp hf with hf | hf
                  · subst hf
                    exact ⟨c, hc, hlook, rfl⟩
                  · exact hall f hf

/-- Totality of the field-declaration loop: when every requested name
has a filter whose class is mapped, the loop succeeds. -/
theorem synthFields_total (tbl : Table) (fs : FilterSetClass) (l : List String)
    (h : ∀ n ∈ l, ∃ c, fs.filters n = some c ∧ (lookupTable tbl c).isSome) :
    ∃ fields, synthFields true tbl fs l = Except.ok fields := by
  induction l with
  | nil => exact ⟨[], rfl⟩
  | cons n rest ih =>
      obtain ⟨c, hc, hsome⟩ := h n (List.mem_cons_self n rest)
      cases hl : lookupTable tbl c with
      | none => rw [hl] at hsome; exact absurd hsome (by simp)
      | some t =>
          obtain ⟨tailFields, htail⟩ := ih (fun m hm => h m (List.mem_cons_of_mem n hm))
          refine ⟨(n, t, PyValue.unset) :: tailFields, ?_⟩
          simp [synthFields, hc, get_filter_field_type, hl, htail]

/-- Error propagation of the field-declaration loop: when every
requested name has a filter but some filter's class is unmapped, the
loop fails with the Type Mapper's `TypeError`. -/
theorem synthFields_err (tbl : Table) (fs : FilterSetClass) (l : List String)
    (hall : ∀ n ∈ l, ∃ c, fs.filters n = some c)
    (hbad : ∃ n ∈ l, ∃ c, fs.filters n = some c ∧ lookupTable tbl c = none) :
    synthFields true tbl fs l = Except.error FilterError.typeErrorNoTypeDefined := by
  induction l with
  | nil => simp at hbad
  | cons n rest ih =>
      obtain ⟨c, hc⟩ := hall n (List.mem_cons_self n rest)
      cases hl : lookupTable tbl c with
      | none =>
          simp [synthFields, hc, get_filter_field_type, hl]
      | some t =>
          obtain ⟨m, hm, cm, hcm, hlm⟩ := hbad
          rcases List.mem_cons.mp hm with hm | hm
          · subst hm
            rw [hc] at hcm
            cases hcm
            rw [hl] at hlm
            exact absurd hlm (by simp)
          · have htail := ih (fun m' hm' => hall m' (List.mem_cons_of_mem n hm'))
              ⟨m, hm, cm, hcm, hlm⟩
            simp [synthFields, hc, get_filter_field_type, hl, htail]

/-! ## Concrete fixtures used by witnesses -/

/-- A filterset class with two mapped filter kinds whose filterset
always validates and always filters down to the queryset `[42]`. -/
def exFSValid : FilterSetClass where
  name := "ProductFilter"
  get_fields := ["a", "b"]
  filters := fun n =>
    if n = "a" then some PyClass.booleanFilter
    else if n = "b" then some PyClass.numberFilter
    else none
  is_valid := fun _ _ => true
  errors := fun _ _ => []
  qs := fun _ _ => [42]

/-- A filterset class whose filterset always rejects its data with a
field-level error on `a`. -/
def exFSInvalid : FilterSetClass where
  name := "BrokenFilter"
  get_fields := ["a", "b"]
  filters := fun n =>
    if n = "a" then some PyClass.booleanFilter
    else if n = "b" then some PyClass.numberFilter
    else none
  is_valid := fun _ _ => false
  errors := fun _ _ => [("a", "Enter a valid value.")]
  qs := fun _ _ => []

/-- A filterset class declaring a field whose filter kind
(`django_filters.RangeFilter`) has no entry in the type map. -/
def exFSBad : FilterSetClass where
  name := "RangeHolder"
  get_fields := ["c"]
  filters := fun n => if n = "c" then some PyClass.rangeFilter else none
  is_valid := fun _ _ => true
  errors := fun _ _ => []
  qs := fun _ _ => []

/-- A truthy instance of `exFSValid` with `a` explicitly set to null
and `b` left as the `UNSET` default. -/
def exInstValid : FilterInstance where
  truthy := true
  filterset_class := exFSValid
  attrs := fun n =>
    if n = "a" then some PyValue.null
    else if n = "b" then some PyValue.unset
    else none

/-- A truthy instance of `exFSInvalid` with the same attributes. -/
def exInstInvalid : FilterInstance where
  truthy := true
  filterset_class := exFSInvalid
  attrs := fun n =>
    if n = "a" then some PyValue.null
    else if n = "b" then some PyValue.unset
    else none

/-- A falsy instance whose filterset would reject any data, showing the
short-circuit never reaches validation. -/
def exInstFalsy : FilterInstance where
  truthy := false
  filterset_class := exFSInvalid
  attrs := fun _ => none

/-- A truthy instance of `exFSValid` carrying no attributes at all. -/
def exInstMissing : FilterInstance where
  truthy := true
  filterset_class := exFSValid
  attrs := fun _ => none

/-- The input type `filter` synthesizes from `exFSValid` on the default
type map. -/
def exInputValid : InputType where
  name := "ProductFilter"
  fields := [("a", FieldType.optBool, PyValue.unset), ("b", FieldType.optStr, PyValue.unset)]
  filterset_class := exFSValid

/-- Success of `filter` determines the declared fields through
`synthFields` and pins the back-reference. -/
theorem filter_ok_fields (tbl : Table) (fs : FilterSetClass) (nm : Option String)
    (ty : InputType) (h : filter true tbl fs nm = Except.ok ty) :
    synthFields true tbl fs fs.get_fields = Except.ok ty.fields ∧
      ty.filterset_class = fs := by
  simp only [filter] at h
  rw [if_neg (by simp)] at h
  cases hs : synthFields true tbl fs fs.get_fields with
  | error e => rw [hs] at h; exact absurd h (by simp)
  | ok fields => rw [hs] at h; cases h; exact ⟨rfl, rfl⟩

/-! ## Claim C1 -/

/-- Claim C1, counterexample: `django_filters.RangeFilter` is not a
recognized filter-rule kind — `get_filter_field_type` rejects it on the
default map — yet `set_filter_field_type` on that same kind does not
fail with a TypeMappingError: it silently inserts a mapping for it,
contradicting the claim that register fails on every unrecognized kind
and never inserts one. -/
theorem c1_counterexample :
    get_filter_field_type true filter_field_type_map
        (FieldTypeArg.cls PyClass.rangeFilter) =
      Except.error FilterError.typeErrorNoTypeDefined
    ∧ set_filter_field_type true filter_field_type_map
        (FieldTypeArg.cls PyClass.rangeFilter) FieldType.optStr =
      Except.ok (filter_field_type_map ++ [(PyClass.rangeFilter, FieldType.optStr)]) := by
  exact ⟨rfl, rfl⟩

/-- Claim C1, amended: lookup fails with a TypeMappingError (a
`TypeError` in the code) both for a non-class argument and for a class
with no current mapping, and never returns a default; register fails
with a TypeMappingError only for a non-class argument, inserting
nothing in that case; for any class argument — recognized or not —
register succeeds and writes the mapping. -/
theorem c1_amended (tbl : Table) (v : PyValue) (t : FieldType) (c : PyClass)
    (hnone : lookupTable tbl c = none) :
    get_filter_field_type true tbl (FieldTypeArg.nonType v) =
        Except.error FilterError.typeErrorNotAType
    ∧ set_filter_field_type true tbl (FieldTypeArg.nonType v) t =
        Except.error FilterError.typeErrorNotAType
    ∧ get_filter_field_type true tbl (FieldTypeArg.cls c) =
        Except.error FilterError.typeErrorNoTypeDefined
    ∧ set_filter_field_type true tbl (FieldTypeArg.cls c) t =
        Except.ok (updateTable tbl c t) := by
  refine ⟨rfl, rfl, ?_, rfl⟩
  simp [get_filter_field_type, hnone]

/-- Claim C1, witness for the amended theorem at the default map, a
non-class value and the unmapped class `django_filters.RangeFilter`. -/
theorem c1_amended_witness :
    get_filter_field_type true filter_field_type_map (FieldTypeArg.nonType PyValue.null) =
        Except.error FilterError.typeErrorNotAType
    ∧ set_filter_field_type true filter_field_type_map (FieldTypeArg.nonType PyValue.null) FieldType.optBool =
        Except.error FilterError.typeErrorNotAType
    ∧ get_filter_field_type true filter_field_type_map (FieldTypeArg.cls PyClass.rangeFilter) =
        Except.error FilterError.typeErrorNoTypeDefined
    ∧ set_filter_field_type true filter_field_type_map (FieldTypeArg.cls PyClass.rangeFilter) FieldType.optBool =
        Except.ok (updateTable filter_field_type_map PyClass.rangeFilter FieldType.optBool) :=
  c1_amended filter_field_type_map PyValue.null FieldType.optBool PyClass.rangeFilter (by decide)

/-! ## Claim C2 -/

/-- Claim C2: for a set, truthy filter instance, when the filterset
constructed from the extracted data and the queryset is valid,
`apply_filter` returns exactly that filterset object's `.qs` value —
not the original queryset argument. -/
theorem c2_valid_returns_filterset_qs (i : FilterInstance) (queryset : QuerySet)
    (ht : i.truthy = true)
    (hv : i.filterset_class.is_valid
        (extractData i.attrs i.filterset_class.get_fields) queryset = true) :
    apply_filter true (FilterArg.inst i) queryset =
      Except.ok (i.filterset_class.qs
        (extractData i.attrs i.filterset_class.get_fields) queryset) := by
  simp [apply_filter, ht, hv]

/-- Claim C2, witness: on a concrete valid instance the result is the
filterset's `.qs` value `[42]`, which differs from the queryset
argument `[1, 2, 3]`. -/
theorem c2_valid_returns_filterset_qs_witness :
    apply_filter true (FilterArg.inst exInstValid) [1, 2, 3] = Except.ok [42]
    ∧ ([42] : QuerySet) ≠ [1, 2, 3] :=
  ⟨c2_valid_returns_filterset_qs exInstValid [1, 2, 3] rfl rfl, by decide⟩

/-! ## Claim C3 -/

/-- Claim C3: in the field-extraction step of `apply_filter` (the
`extractData` loop over `filterset_class.get_fields()`), a declared
field whose attribute value on the instance is `v` enters the data dict
exactly when `v` is not the `UNSET` sentinel; a field explicitly set to
null is included with value null, and an unset field is omitted
entirely. -/
theorem c3_extraction_iff (i : FilterInstance) (n : String) (v : PyValue)
    (hmem : n ∈ i.filterset_class.get_fields)
    (hattr : i.attrs n = some v) :
    ((n, v) ∈ extractData i.attrs i.filterset_class.get_fields ↔ v ≠ PyValue.unset)
    ∧ (v = PyValue.unset →
        ∀ w, (n, w) ∉ extractData i.attrs i.filterset_class.get_fields)
    ∧ (v = PyValue.null →
        (n, PyValue.null) ∈ extractData i.attrs i.filterset_class.get_fields) := by
  have hget : (i.attrs n).getD PyValue.null = v := by rw [hattr]; rfl
  refine ⟨?_, ?_, ?_⟩
  · rw [extractData_mem]
    constructor
    · rintro ⟨_, _, hw⟩
      exact hw
    · intro hw
      exact ⟨hmem, hget, hw⟩
  · intro hv w hw
    obtain ⟨_, hval, hwne⟩ := (extractData_mem _ _ _ _).mp hw
    have hwv : w = v := by rw [← hval, hget]
    exact hwne (hwv.trans hv)
  · intro hv
    rw [extractData_mem]
    exact ⟨hmem, by rw [hget, hv], by decide⟩

/-- Claim C3, witness: on the concrete instance with `a` explicitly
null and `b` unset, the extracted data contains `a` mapped to null and
nothing at all for `b`. -/
theorem c3_extraction_iff_witness :
    (("a", PyValue.null) ∈ extractData exInstValid.attrs exInstValid.filterset_class.get_fields)
    ∧ (∀ w, ("b", w) ∉ extractData exInstValid.attrs exInstValid.filterset_class.get_fields) := by
  refine ⟨?_, ?_⟩
  · exact (c3_extraction_iff exInstValid "a" PyValue.null (by decide) (by decide)).2.2 rfl
  · exact (c3_extraction_iff exInstValid "b" PyValue.unset (by decide) (by decide)).2.1 rfl

/-! ## Claim C4 -/

/-- Claim C4: when the filter instance is the `UNSET` sentinel or an
otherwise falsy instance, `apply_filter` returns the queryset argument
unchanged; the statement holds for every filterset class behaviour, so
the specification's validation is never consulted. -/
theorem c4_falsy_passthrough (queryset : QuerySet) :
    apply_filter true FilterArg.unsetArg queryset = Except.ok queryset
    ∧ ∀ i : FilterInstance, i.truthy = false →
        apply_filter true (FilterArg.inst i) queryset = Except.ok queryset := by
  refine ⟨rfl, ?_⟩
  intro i hi
  simp [apply_filter, hi]

/-- Claim C4, witness: the sentinel and a concrete falsy instance whose
filterset rejects all data both pass the queryset through untouched. -/
theorem c4_falsy_passthrough_witness :
    apply_filter true FilterArg.unsetArg [1, 2, 3] = Except.ok [1, 2, 3]
    ∧ apply_filter true (FilterArg.inst exInstFalsy) [1, 2, 3] = Except.ok [1, 2, 3] :=
  ⟨(c4_falsy_passthrough [1, 2, 3]).1,
    (c4_falsy_passthrough [1, 2, 3]).2 exInstFalsy rfl⟩

/-! ## Claim C5 -/

/-- Claim C5: for a set, truthy filter instance, when the filterset
built from the extracted data reports invalid, `apply_filter` fails
with `FilterSetError` carrying the filterset's field-to-message errors
verbatim; no queryset is returned, so nothing is partially filtered. -/
theorem c5_invalid_raises (i : FilterInstance) (queryset : QuerySet)
    (ht : i.truthy = true)
    (hv : i.filterset_class.is_valid
        (extractData i.attrs i.filterset_class.get_fields) queryset = false) :
    apply_filter true (FilterArg.inst i) queryset =
      Except.error (FilterError.filterSetError
        (i.filterset_class.errors
          (extractData i.attrs i.filterset_class.get_fields) queryset)) := by
  simp [apply_filter, ht, hv]

/-- Claim C5, witness: the concrete invalid instance raises the
filterset's error for field `a` and returns no queryset. -/
theorem c5_invalid_raises_witness :
    apply_filter true (FilterArg.inst exInstInvalid) [1, 2, 3] =
      Except.error (FilterError.filterSetError [("a", "Enter a valid value.")]) :=
  c5_invalid_raises exInstInvalid [1, 2, 3] rfl rfl

/-! ## Claim C6 -/

/-- Claim C6: when every declared field's filter kind is mapped,
`filter` synthesizes an input type whose fields are exactly the
filterset's field names in order, each annotated with the Type Mapper's
type for its kind, each defaulting to the `UNSET` sentinel, and
carrying the filterset class as back-reference; when some field's kind
is unmapped, the Type Mapper's `TypeError` propagates and no input type
is produced. -/
theorem c6_synthesis_projection (tbl : Table) (fs : FilterSetClass) (nm : Option String) :
    ((∀ n ∈ fs.get_fields, ∃ c, fs.filters n = some c ∧ (lookupTable tbl c).isSome) →
      ∃ fields,
        filter true tbl fs nm = Except.ok
          ⟨match nm with
            | none => fs.name
            | some s => if s = "" then fs.name else s, fields, fs⟩
        ∧ fields.map (fun f => f.1) = fs.get_fields
        ∧ ∀ f ∈ fields, ∃ c, fs.filters f.1 = some c ∧
            lookupTable tbl c = some f.2.1 ∧ f.2.2 = PyValue.unset)
    ∧ ((∀ n ∈ fs.get_fields, ∃ c, fs.filters n = some c) →
       (∃ n ∈ fs.get_fields, ∃ c, fs.filters n = some c ∧ lookupTable tbl c = none) →
        filter true tbl fs nm = Except.error FilterError.typeErrorNoTypeDefined) := by
  constructor
  · intro h
    obtain ⟨fields, hf⟩ := synthFields_total tbl fs fs.get_fields h
    obtain ⟨hmap, hall⟩ := synthFields_ok tbl fs fs.get_fields fields hf
    refine ⟨fields, ?_, hmap, hall⟩
    simp [filter, hf]
  · intro hall hbad
    have herr := synthFields_err tbl fs fs.get_fields hall hbad
    simp [filter, herr]

/-- Claim C6, witness: on the default map, `exFSValid` (boolean and
number filter kinds) synthesizes fields `a`, `b` in order, while
`exFSBad` (a range filter kind, unmapped) propagates the `TypeError`. -/
theorem c6_synthesis_projection_witness :
    (∃ fields,
      filter true filter_field_type_map exFSValid none =
        Except.ok ⟨"ProductFilter", fields, exFSValid⟩
      ∧ fields.map (fun f => f.1) = ["a", "b"])
    ∧ filter true filter_field_type_map exFSBad none =
        Except.error FilterError.typeErrorNoTypeDefined := by
  constructor
  · obtain ⟨fields, h1, h2, _⟩ :=
      (c6_synthesis_projection filter_field_type_map exFSValid none).1 (by
        intro n hn
        simp only [exFSValid, List.mem_cons, List.not_mem_nil, or_false] at hn
        rcases hn with rfl | rfl
        · exact ⟨PyClass.booleanFilter, by decide, by decide⟩
        · exact ⟨PyClass.numberFilter, by decide, by decide⟩)
    exact ⟨fields, h1, h2⟩
  · exact (c6_synthesis_projection filter_field_type_map exFSBad none).2
      (by
        intro n hn
        simp only [exFSBad, List.mem_cons, List.not_mem_nil, or_false] at hn
        subst hn
        exact ⟨PyClass.rangeFilter, by decide⟩)
      ⟨"c", by decide, PyClass.rangeFilter, by decide, by decide⟩

/-! ## Claim C7 -/

/-- Claim C7: with `django_filters` absent, every entry point —
`get_filter_field_type`, `set_filter_field_type`, `apply_filter` and
`filter` — fails first with the `ModuleNotFoundError` carrying the
install message, before doing anything else: the result is the error
for every argument, every table and every queryset, and no table
update or filterset construction happens. -/
theorem c7_missing_dependency (tbl : Table) (a : FieldTypeArg) (t : FieldType)
    (fa : FilterArg) (q : QuerySet) (fs : FilterSetClass) (nm : Option String) :
    get_filter_field_type false tbl a =
        Except.error (FilterError.moduleNotFoundError installMessage)
    ∧ set_filter_field_type false tbl a t =
        Except.error (FilterError.moduleNotFoundError installMessage)
    ∧ apply_filter false fa q =
        Except.error (FilterError.moduleNotFoundError installMessage)
    ∧ filter false tbl fs nm =
        Except.error (FilterError.moduleNotFoundError installMessage) :=
  ⟨rfl, rfl, rfl, rfl⟩

/-! ## Claim C8 -/

/-- Claim C8: registering a type for any filter class makes lookup
return exactly that type, and registering twice for the same class
keeps only the latest value: last-write-wins. -/
theorem c8_last_write_wins (tbl : Table) (c : PyClass) (t t2 : FieldType) :
    (set_filter_field_type true tbl (FieldTypeArg.cls c) t =
        Except.ok (updateTable tbl c t)
      ∧ get_filter_field_type true (updateTable tbl c t) (FieldTypeArg.cls c) =
        Except.ok t)
    ∧ (set_filter_field_type true (updateTable tbl c t) (FieldTypeArg.cls c) t2 =
        Except.ok (updateTable (updateTable tbl c t) c t2)
      ∧ get_filter_field_type true (updateTable (updateTable tbl c t) c t2)
          (FieldTypeArg.cls c) = Except.ok t2) := by
  refine ⟨⟨rfl, ?_⟩, rfl, ?_⟩
  · simp [get_filter_field_type, lookupTable_updateTable_self]
  · simp [get_filter_field_type, lookupTable_updateTable_self]

/-! ## Claim C9 -/

/-- Claim C9: a type already synthesized by `filter` keeps the field
set, field types and `UNSET` defaults resolved against the type map as
it stood at synthesis time — a later `set_filter_field_type` override
leaves them pinned to the old map; the override is visible to
subsequent lookups and to types synthesized afterwards, whose fields
resolve against the updated map. -/
theorem c9_no_retroactive_change (tbl : Table) (fs : FilterSetClass) (c : PyClass)
    (t : FieldType) (ty : InputType) (nm : Option String)
    (h : filter true tbl fs nm = Except.ok ty) :
    (∀ f ∈ ty.fields, ∃ c2, fs.filters f.1 = some c2 ∧
        lookupTable tbl c2 = some f.2.1 ∧ f.2.2 = PyValue.unset)
    ∧ set_filter_field_type true tbl (FieldTypeArg.cls c) t =
        Except.ok (updateTable tbl c t)
    ∧ get_filter_field_type true (updateTable tbl c t) (FieldTypeArg.cls c) =
        Except.ok t
    ∧ ∀ ty2, filter true (updateTable tbl c t) fs nm = Except.ok ty2 →
        ∀ f ∈ ty2.fields, ∃ c2, fs.filters f.1 = some c2 ∧
          lookupTable (updateTable tbl c t) c2 = some f.2.1 ∧ f.2.2 = PyValue.unset := by
  obtain ⟨hs, _⟩ := filter_ok_fields tbl fs nm ty h
  refine ⟨(synthFields_ok tbl fs fs.get_fields ty.fields hs).2, rfl, ?_, ?_⟩
  · simp [get_filter_field_type, lookupTable_updateTable_self]
  · intro ty2 h2
    obtain ⟨hs2, _⟩ := filter_ok_fields (updateTable tbl c t) fs nm ty2 h2
    exact (synthFields_ok (updateTable tbl c t) fs fs.get_fields ty2.fields hs2).2

/-- Claim C9, witness: after synthesizing `exInputValid` from
`exFSValid` on the default map and then overriding the boolean-filter
mapping, the already-synthesized fields still resolve against the old
map while the new lookup sees the override. -/
theorem c9_no_retroactive_change_witness :
    (∀ f ∈ exInputValid.fields, ∃ c2, exFSValid.filters f.1 = some c2 ∧
        lookupTable filter_field_type_map c2 = some f.2.1 ∧ f.2.2 = PyValue.unset)
    ∧ get_filter_field_type true
        (updateTable filter_field_type_map PyClass.booleanFilter (FieldType.custom 0))
        (FieldTypeArg.cls PyClass.booleanFilter) = Except.ok (FieldType.custom 0) := by
  have h := c9_no_retroactive_change filter_field_type_map exFSValid
    PyClass.booleanFilter (FieldType.custom 0) exInputValid none rfl
  exact ⟨h.1, h.2.2.1⟩

/-! ## Claim C10 -/

/-- Claim C10: in the field-extraction step of `apply_filter`, a
declared field name with no attribute on the instance at all is read by
`getattr` with default `None`, so it is included in the extracted data
dict with value null rather than omitted as unset. -/
theorem c10_missing_attribute_null (i : FilterInstance) (n : String)
    (_ht : i.truthy = true)
    (hmem : n ∈ i.filterset_class.get_fields)
    (habs : i.attrs n = none) :
    (n, PyValue.null) ∈ extractData i.attrs i.filterset_class.get_fields := by
  rw [extractData_mem]
  refine ⟨hmem, ?_, by decide⟩
  rw [habs]
  rfl

/-- Claim C10, witness: on the concrete truthy instance with no
attributes, the declared field `a` appears in the data dict as null. -/
theorem c10_missing_attribute_null_witness :
    (("a" : String), PyValue.null) ∈
      extractData exInstMissing.attrs exInstMissing.filterset_class.get_fields :=
  c10_missing_attribute_null exInstMissing "a" rfl (by decide) rfl

end StrawberryDjango
